import Mathlib

/-!
Shallow embedding of the recurrence-and-intake engine of the Pills_bot
repository (src/database.py, src/scheduler.py, src/handlers/confirm.py),
together with theorems settling the frozen claims about its specification.

Conventions of the embedding:
* A Python `datetime.date` is modelled by `PyDate`, recording exactly the
  observations the code makes of a date: its proleptic ordinal (used for
  date subtraction `(current_date - start).days`), its `day` (day of month),
  its `isoweekday`, and its `month`/`year` (used only to state calendar
  validity).
* A Python `datetime.datetime` is modelled by `PyDateTime`: an absolute
  minute count on the timeline (used for `datetime(x, '+N hours') <= now`
  comparisons), the calendar date of the instant (`date(x)` in SQL /
  `.date()` in Python), the `hour`, and the `HH:MM` rendering
  (`strftime("%H:%M")`).
* The SQLite store is modelled by `DB`: lists of rows for the `users`,
  `pills`, `schedules` and `intake_logs` tables plus the autoincrement
  counter for `intake_logs`.
* SQL `JOIN ... ON id` lookups are modelled by `List.find?` on the row id;
  message formatting and per-recipient batching are presentation and are
  not modelled: an evaluation tick returns the underlying rows it would
  notify about, and a delivery is assumed to succeed (the claims under
  study quantify over the successful-delivery behaviour).
-/

/-- Observations the source code makes of a `datetime.date`. -/
structure PyDate where
  ord : Int
  year : Int
  month : Nat
  day : Nat
  isoweekday : Nat
deriving DecidableEq, Repr

/-- Leap-year rule of the proleptic Gregorian calendar used by `datetime.date`. -/
def isLeapYear (y : Int) : Bool :=
  y % 4 = 0 && (y % 100 ≠ 0 || y % 400 = 0)

/-- Number of days in a month of the Gregorian calendar. -/
def daysInMonth (y : Int) (m : Nat) : Nat :=
  if m = 2 then (if isLeapYear y then 29 else 28)
  else if m = 4 || m = 6 || m = 9 || m = 11 then 30
  else 31

/-- A `PyDate` is valid when its fields are consistent with a real calendar
date: month in 1..12, day within the month, isoweekday in 1..7. -/
def PyDate.Valid (d : PyDate) : Prop :=
  1 ≤ d.month ∧ d.month ≤ 12 ∧ 1 ≤ d.day ∧ d.day ≤ daysInMonth d.year d.month ∧
    1 ≤ d.isoweekday ∧ d.isoweekday ≤ 7

instance (d : PyDate) : Decidable d.Valid := by
  unfold PyDate.Valid; infer_instance

/-- Observations the source code makes of a timezone-aware `datetime`. -/
structure PyDateTime where
  minutes : Int
  date : PyDate
  hour : Nat
  hm : String
deriving DecidableEq, Repr

/-- Row of the `users` table (src/database.py, `users`). -/
structure User where
  id : Nat
  telegram_id : Nat
  chat_id : Nat
deriving DecidableEq, Repr

/-- Row of the `pills` table (src/database.py, `pills`). -/
structure Pill where
  id : Nat
  user_id : Nat
  name : String
  dosage : String
deriving DecidableEq, Repr

/-- Row of the `schedules` table (src/database.py, `schedules`).
`frequency` and `interval_days` are stored raw; the query code normalises
them with `row["frequency"] or "daily"` and `row["interval_days"] or 1`,
modelled below in `rowShouldRemind`.  The empty string stands for SQL NULL
in `frequency`, `0` for SQL NULL in `interval_days`. -/
structure Schedule where
  id : Nat
  pill_id : Nat
  time : String
  days : List Nat
  frequency : String
  interval_days : Nat
  start_date : Option PyDate
  is_active : Bool
deriving DecidableEq, Repr

/-- Row of the `intake_logs` table (src/database.py, `intake_logs`). -/
structure IntakeLog where
  id : Nat
  schedule_id : Nat
  scheduled_time : PyDateTime
  taken_at : Option PyDateTime
  status : String
  reminder_count : Nat
  last_reminder_at : Option PyDateTime
deriving DecidableEq, Repr

/-- State of the SQLite store. `next_log_id` is the autoincrement counter of
`intake_logs`. -/
structure DB where
  users : List User
  pills : List Pill
  schedules : List Schedule
  logs : List IntakeLog
  next_log_id : Nat
deriving DecidableEq, Repr

/-- Per-row recurrence check shared verbatim by `get_schedules_for_time`,
`get_schedules_for_time_range` and `get_user_today_schedule`
(src/database.py lines 352-366, 402-416, 548-562): the `should_remind`
if-chain over the frequency. -/
def shouldRemind (frequency : String) (days : List Nat) (interval_days : Nat)
    (start_date : Option PyDate) (current_date : PyDate) : Bool :=
  if frequency = "daily" then true
  else if frequency = "weekly" || frequency = "specific_days" then
    days.contains current_date.isoweekday
  else if frequency = "monthly" then
    days.contains current_date.day
  else if frequency = "interval" then
    match start_date with
    | some start =>
      let days_passed : Int := current_date.ord - start.ord
      decide (days_passed ≥ 0 ∧ days_passed % (interval_days : Int) = 0)
    | none => true
  else false

/-- Row reading done by the query loops: `row["frequency"] or "daily"` and
`row["interval_days"] or 1` followed by the `should_remind` check. -/
def rowShouldRemind (s : Schedule) (current_date : PyDate) : Bool :=
  let frequency := if s.frequency = "" then "daily" else s.frequency
  let interval_days := if s.interval_days = 0 then 1 else s.interval_days
  shouldRemind frequency s.days interval_days s.start_date current_date

/-- Lookup of a pill row by primary key, modelling `JOIN pills p ON s.pill_id = p.id`. -/
def findPill (db : DB) (pill_id : Nat) : Option Pill :=
  db.pills.find? (fun p => p.id = pill_id)

/-- Lookup of a user row by primary key, modelling `JOIN users u ON p.user_id = u.id`. -/
def findUser (db : DB) (user_id : Nat) : Option User :=
  db.users.find? (fun u => u.id = user_id)

/-- Lookup of a schedule row by primary key. -/
def findSchedule (db : DB) (schedule_id : Nat) : Option Schedule :=
  db.schedules.find? (fun s => s.id = schedule_id)

/-- A joined row `schedules JOIN pills JOIN users` as produced by the
reminder queries of src/database.py. -/
structure JoinedRow where
  sched : Schedule
  pill : Pill
  user : User
deriving DecidableEq, Repr

/-- Joined base relation `FROM schedules s JOIN pills p ON s.pill_id = p.id
JOIN users u ON p.user_id = u.id` used by both reminder queries. -/
def joinedRows (db : DB) : List JoinedRow :=
  db.schedules.filterMap (fun s =>
    (findPill db s.pill_id).bind (fun p =>
      (findUser db p.user_id).map (fun u => JoinedRow.mk s p u)))

/-- Join of the confirmation handlers (src/handlers/confirm.py):
`SELECT u.telegram_id, ..., s.frequency, s.id FROM schedules s JOIN pills p
JOIN users u WHERE s.id = ?`. -/
def ownerRow (db : DB) (schedule_id : Nat) : Option JoinedRow :=
  (findSchedule db schedule_id).bind (fun s =>
    (findPill db s.pill_id).bind (fun p =>
      (findUser db p.user_id).map (fun u => JoinedRow.mk s p u)))

/-- Stable insertion of a row into a list sorted by schedule time, used to
model the SQL `ORDER BY s.time`. -/
def insertByTime (r : JoinedRow) : List JoinedRow → List JoinedRow
  | [] => [r]
  | x :: xs => if x.sched.time ≤ r.sched.time then x :: insertByTime r xs else r :: x :: xs

/-- Stable sort by schedule time, modelling `ORDER BY s.time`. -/
def orderByTime : List JoinedRow → List JoinedRow
  | [] => []
  | x :: xs => insertByTime x (orderByTime xs)

/-- Embeds `get_schedules_for_time` (src/database.py lines 374-421): SQL
filter `s.time = ? AND s.is_active = 1` over the joined relation, then the
Python loop keeping the rows whose recurrence matches `current_date`. -/
def get_schedules_for_time (db : DB) (time_str : String) (current_date : PyDate) :
    List JoinedRow :=
  ((joinedRows db).filter (fun r => r.sched.time = time_str && r.sched.is_active)).filter
    (fun r => rowShouldRemind r.sched current_date)

/-- Embeds `get_schedules_for_time_range` (src/database.py lines 323-371):
SQL filter `s.time >= ? AND s.time <= ? AND s.is_active = 1 ORDER BY s.time`
over the joined relation, then the identical recurrence loop. -/
def get_schedules_for_time_range (db : DB) (time_from time_to : String)
    (current_date : PyDate) : List JoinedRow :=
  (orderByTime ((joinedRows db).filter (fun r =>
      time_from ≤ r.sched.time && r.sched.time ≤ time_to && r.sched.is_active))).filter
    (fun r => rowShouldRemind r.sched current_date)

/-- Embeds `check_existing_log` (src/database.py lines 570-581): is there an
intake log for this schedule whose scheduled date is the given date. -/
def check_existing_log (db : DB) (schedule_id : Nat) (scheduled_date : PyDate) : Bool :=
  db.logs.any (fun l => l.schedule_id = schedule_id && l.scheduled_time.date = scheduled_date)

/-- Embeds `create_intake_log` (src/database.py lines 435-449): insert a row
with status `'pending'` and fresh autoincrement id. -/
def create_intake_log (db : DB) (schedule_id : Nat) (scheduled_time : PyDateTime) :
    DB × IntakeLog :=
  let log : IntakeLog :=
    { id := db.next_log_id, schedule_id := schedule_id, scheduled_time := scheduled_time,
      taken_at := none, status := "pending", reminder_count := 0, last_reminder_at := none }
  ({ db with logs := db.logs ++ [log], next_log_id := db.next_log_id + 1 }, log)

/-- The check-then-create step of `send_reminders` (src/scheduler.py lines
128-134), which is the spec's `ensureRecord(ruleId, scheduledAt)`: skip when
`check_existing_log` holds, otherwise `create_intake_log`; the boolean is
the spec's `created` flag. -/
def ensureRecord (db : DB) (schedule_id : Nat) (now : PyDateTime) : DB × Bool :=
  if check_existing_log db schedule_id now.date then (db, false)
  else ((create_intake_log db schedule_id now).1, true)

/-- Embeds `get_intake_log` (src/database.py lines 452-473). -/
def get_intake_log (db : DB) (log_id : Nat) : Option IntakeLog :=
  db.logs.find? (fun l => l.id = log_id)

/-- Update applied to a single matching row by `update_intake_status`:
`SET status = ?, taken_at = ?` when a `taken_at` is passed (a datetime is
always truthy in the Python `if taken_at:`), else `SET status = ?`. -/
def updateLogStatus (log_id : Nat) (status : String) (taken_at : Option PyDateTime)
    (l : IntakeLog) : IntakeLog :=
  if l.id = log_id then
    match taken_at with
    | some t => { l with status := status, taken_at := some t }
    | none => { l with status := status }
  else l

/-- Embeds `update_intake_status` (src/database.py lines 476-491). -/
def update_intake_status (db : DB) (log_id : Nat) (status : String)
    (taken_at : Option PyDateTime) : DB :=
  { db with logs := db.logs.map (updateLogStatus log_id status taken_at) }

/-- Embeds `update_reminder_count` (src/database.py lines 584-596):
`SET reminder_count = reminder_count + 1, last_reminder_at = ? WHERE id = ?`. -/
def update_reminder_count (db : DB) (log_id : Nat) (reminder_time : PyDateTime) : DB :=
  { db with logs := db.logs.map (fun l =>
      if l.id = log_id then
        { l with reminder_count := l.reminder_count + 1, last_reminder_at := some reminder_time }
      else l) }

/-- Embeds `update_schedule_start_date` (src/database.py lines 623-631):
`UPDATE schedules SET start_date = ? WHERE id = ?`. -/
def update_schedule_start_date (db : DB) (schedule_id : Nat) (new_start_date : PyDate) : DB :=
  { db with schedules := db.schedules.map (fun s =>
      if s.id = schedule_id then { s with start_date := some new_start_date } else s) }

/-- Embeds the record-creating loop of `send_reminders` (src/scheduler.py
lines 115-149): select the schedules due at `now.hm` on `now.date`, and for
each one skip it when `check_existing_log` holds, otherwise create a pending
intake log. Returns the new state and the freshly created logs (the rows the
grouped reminder messages are built from). -/
def send_reminders (db : DB) (now : PyDateTime) : DB × List IntakeLog :=
  (get_schedules_for_time db now.hm now.date).foldl
    (fun acc r =>
      if check_existing_log acc.1 r.sched.id now.date then acc
      else
        let created := create_intake_log acc.1 r.sched.id now
        (created.1, acc.2 ++ [created.2]))
    (db, [])

/-- Outcome reported to the Telegram callback by the confirmation handlers:
`notFound` is the "Запись не найдена" alert, `forbidden` the "Это не твоя
таблетка!" alert, `alreadyDone` the idempotent early-return acknowledgement,
`success` the normal confirmation path. -/
inductive ConfirmResult where
  | notFound
  | forbidden
  | alreadyDone
  | success
deriving DecidableEq, Repr

/-- Embeds `confirm_taken` (src/handlers/confirm.py lines 26-83): look the
log up, resolve the ownership chain, early-return when the caller is not the
owner or the log is already `'taken'`; otherwise set status `'taken'` with
`taken_at = now` and, when the owning schedule's raw frequency is
`'interval'`, reset its `start_date` to today. -/
def confirm_taken (db : DB) (log_id : Nat) (actor_telegram_id : Nat) (now : PyDateTime) :
    DB × ConfirmResult :=
  match get_intake_log db log_id with
  | none => (db, .notFound)
  | some log =>
    match ownerRow db log.schedule_id with
    | none => (db, .forbidden)
    | some row =>
      if row.user.telegram_id ≠ actor_telegram_id then (db, .forbidden)
      else if log.status = "taken" then (db, .alreadyDone)
      else
        let db1 := update_intake_status db log_id "taken" (some now)
        let db2 :=
          if row.sched.frequency = "interval" then
            update_schedule_start_date db1 row.sched.id now.date
          else db1
        (db2, .success)

/-- Embeds `confirm_missed` (src/handlers/confirm.py lines 87-135): look the
log up, resolve the ownership chain, early-return when the caller is not the
owner or the log is already `'missed'`; otherwise set status `'missed'`
without touching `taken_at`. -/
def confirm_missed (db : DB) (log_id : Nat) (actor_telegram_id : Nat) :
    DB × ConfirmResult :=
  match get_intake_log db log_id with
  | none => (db, .notFound)
  | some log =>
    match ownerRow db log.schedule_id with
    | none => (db, .forbidden)
    | some row =>
      if row.user.telegram_id ≠ actor_telegram_id then (db, .forbidden)
      else if log.status = "missed" then (db, .alreadyDone)
      else (update_intake_status db log_id "missed" none, .success)

/-- A joined row of `get_logs_for_followup_reminder`: the intake log plus
the schedule, pill and user columns selected alongside it. -/
structure FollowupRow where
  il : IntakeLog
  sched : Schedule
  pill : Pill
  user : User
deriving DecidableEq, Repr

/-- Embeds `get_logs_for_followup_reminder` (src/database.py lines 599-620):
joined rows whose log has `status = 'pending'`, was scheduled on the current
day (`date(il.scheduled_time) = date('now')`), has `reminder_count = 0`, and
whose scheduled time plus `hours_ago` hours is at or before now. -/
def get_logs_for_followup_reminder (db : DB) (hours_ago : Nat) (now : PyDateTime) :
    List FollowupRow :=
  db.logs.filterMap (fun il =>
    if il.status = "pending" ∧ il.scheduled_time.date = now.date ∧
        il.reminder_count = 0 ∧
        il.scheduled_time.minutes + hours_ago * 60 ≤ now.minutes then
      (ownerRow db il.schedule_id).map (fun r => FollowupRow.mk il r.sched r.pill r.user)
    else none)

/-- Embeds `is_within_reminder_hours` (src/scheduler.py lines 67-70) with
`REMINDER_CUTOFF_HOUR = 21`. -/
def is_within_reminder_hours (now : PyDateTime) : Bool :=
  now.hour < 21

/-- Embeds `send_followup_reminders` (src/scheduler.py lines 174-224) under
the successful-delivery assumption: outside reminder hours it does nothing;
otherwise it selects the follow-up rows with a one-hour threshold, bumps
each selected log's reminder count, and the returned rows are the ones the
grouped follow-up messages are built from. -/
def send_followup_reminders (db : DB) (now : PyDateTime) : DB × List FollowupRow :=
  if is_within_reminder_hours now then
    let rows := get_logs_for_followup_reminder db 1 now
    (rows.foldl (fun acc r => update_reminder_count acc r.il.id now) db, rows)
  else (db, [])

/-- Selection made by the evening sweep (src/scheduler.py lines 227-294 with
`get_pending_logs_for_today`, src/database.py lines 494-514): every intake
log still `'pending'` that was scheduled today and whose
schedule-pill-user chain resolves (the queries join through it). -/
def pendingLogsForToday (db : DB) (today : PyDate) : List IntakeLog :=
  db.logs.filter (fun il =>
    il.status = "pending" && il.scheduled_time.date = today &&
      (ownerRow db il.schedule_id).isSome)

/-- Embeds `send_evening_reminders` (src/scheduler.py lines 227-294) under
the successful-delivery assumption: after notifying each owner, every
pending log of today is marked `'reminded'` via
`update_intake_status(log_id, "reminded")` (no `taken_at`), with no
condition on `reminder_count`. -/
def send_evening_reminders (db : DB) (today : PyDate) : DB :=
  (pendingLogsForToday db today).foldl
    (fun acc il => update_intake_status acc il.id "reminded" none) db

/-- One engine operation: a per-minute reminder tick, a user confirmation
(taken or missed), a follow-up tick, or the evening sweep. -/
inductive Op where
  | tick (now : PyDateTime)
  | confirmTaken (log_id actor : Nat) (now : PyDateTime)
  | confirmMissed (log_id actor : Nat)
  | followUps (now : PyDateTime)
  | eveningSweep (today : PyDate)
deriving Repr

/-- State transition of one engine operation. -/
def stepOp (db : DB) : Op → DB
  | .tick now => (send_reminders db now).1
  | .confirmTaken log_id actor now => (confirm_taken db log_id actor now).1
  | .confirmMissed log_id actor => (confirm_missed db log_id actor).1
  | .followUps now => (send_followup_reminders db now).1
  | .eveningSweep today => send_evening_reminders db today

/-- Running a sequence of engine operations from a state. -/
def runOps (db : DB) (ops : List Op) : DB :=
  ops.foldl stepOp db

/-- Two intake logs do not collide on the occurrence key
`(schedule_id, date(scheduled_time))`. -/
def KeyDisjoint (a b : IntakeLog) : Prop :=
  ¬(a.schedule_id = b.schedule_id ∧ a.scheduled_time.date = b.scheduled_time.date)

instance (a b : IntakeLog) : Decidable (KeyDisjoint a b) := by
  unfold KeyDisjoint; infer_instance

/-- The core idempotency invariant of the spec: at most one intake record
per `(ruleId, date(scheduledAt))`. -/
def AtMostOnePerOccurrence (db : DB) : Prop :=
  db.logs.Pairwise KeyDisjoint

instance (db : DB) : Decidable (AtMostOnePerOccurrence db) := by
  unfold AtMostOnePerOccurrence; infer_instance

/-- The `takenAt` discipline actually maintained by the code: a `'taken'`
log always carries a `taken_at`, and a log carrying a `taken_at` is
`'taken'` or `'missed'`. -/
def TakenAtInv (db : DB) : Prop :=
  ∀ l ∈ db.logs,
    (l.status = "taken" → l.taken_at.isSome) ∧
    (l.taken_at.isSome → l.status = "taken" ∨ l.status = "missed")

instance (db : DB) : Decidable (TakenAtInv db) := by
  unfold TakenAtInv; infer_instance

/-- Primary-key property of `intake_logs`: log ids are distinct. -/
def LogIdsNodup (db : DB) : Prop :=
  (db.logs.map (fun l => l.id)).Nodup

instance (db : DB) : Decidable (LogIdsNodup db) := by
  unfold LogIdsNodup; infer_instance

/-- Autoincrement property of `intake_logs`: every stored id is below the
next fresh id. -/
def LogIdsBounded (db : DB) : Prop :=
  ∀ l ∈ db.logs, l.id < db.next_log_id

instance (db : DB) : Decidable (LogIdsBounded db) := by
  unfold LogIdsBounded; infer_instance

/-- Well-formedness of the store maintained by every engine operation. -/
def DBInv (db : DB) : Prop :=
  TakenAtInv db ∧ LogIdsNodup db ∧ LogIdsBounded db

instance (db : DB) : Decidable (DBInv db) := by
  unfold DBInv; infer_instance

/-! Concrete data used by witnesses and counterexamples. -/

/-- 2024-01-01 (a Monday), at timeline ordinal 0. -/
def day0 : PyDate := ⟨0, 2024, 1, 1, 1⟩

/-- 2024-01-02. -/
def day1 : PyDate := ⟨1, 2024, 1, 2, 2⟩

/-- 2024-01-04, three days after the anchor `day0`. -/
def day3 : PyDate := ⟨3, 2024, 1, 4, 4⟩

/-- 2024-02-05 (a Monday in February). -/
def feb5 : PyDate := ⟨35, 2024, 2, 5, 1⟩

/-- 08:00 on `day0` (minute 480 of the timeline). -/
def t0800 : PyDateTime := ⟨480, day0, 8, "08:00"⟩

/-- 08:05 on `day0`. -/
def t0805 : PyDateTime := ⟨485, day0, 8, "08:05"⟩

/-- 09:01 on `day0`, 61 minutes after `t0800`. -/
def t0901 : PyDateTime := ⟨541, day0, 9, "09:01"⟩

/-- 22:00 on `day0`, after the 21:00 reminder cutoff. -/
def t2200 : PyDateTime := ⟨1320, day0, 22, "22:00"⟩

/-- 23:00 on `day0`. -/
def t2300 : PyDateTime := ⟨1380, day0, 23, "23:00"⟩

/-- 01:00 on `day1`, 120 minutes after `t2300`. -/
def t0100 : PyDateTime := ⟨1500, day1, 1, "01:00"⟩

def exUser : User := ⟨1, 10, 5⟩

def exPill : Pill := ⟨1, 1, "Aspirin", "100mg"⟩

/-- A daily schedule at 08:00. -/
def exSchedDaily : Schedule := ⟨1, 1, "08:00", [], "daily", 1, none, true⟩

/-- An every-3-days schedule anchored at `day0`. -/
def exSchedInterval : Schedule := ⟨2, 1, "09:00", [], "interval", 3, some day0, true⟩

/-- A weekly schedule on ISO weekdays 1, 3, 5. -/
def exSchedWeekly : Schedule := ⟨3, 1, "08:00", [1, 3, 5], "weekly", 1, none, true⟩

/-- A monthly schedule on day 31. -/
def exSchedMonthly31 : Schedule := ⟨4, 1, "08:00", [31], "monthly", 1, none, true⟩

/-- Store with one user, one pill, one daily schedule, no intake logs. -/
def exDb0 : DB := ⟨[exUser], [exPill], [exSchedDaily], [], 1⟩

/-- An intake log already confirmed taken at 08:05. -/
def exLogTaken : IntakeLog := ⟨1, 1, t0800, some t0805, "taken", 0, none⟩

/-- Store holding only `exLogTaken`. -/
def exDbTaken : DB := ⟨[exUser], [exPill], [exSchedDaily], [exLogTaken], 2⟩

/-- An intake log already confirmed missed. -/
def exLogMissed : IntakeLog := ⟨1, 1, t0800, none, "missed", 0, none⟩

/-- Store holding only `exLogMissed`. -/
def exDbMissed : DB := ⟨[exUser], [exPill], [exSchedDaily], [exLogMissed], 2⟩

/-- A pending intake log scheduled at 08:00 today with no follow-up yet. -/
def exLogPending : IntakeLog := ⟨1, 1, t0800, none, "pending", 0, none⟩

/-- Store holding only `exLogPending`. -/
def exDbPending : DB := ⟨[exUser], [exPill], [exSchedDaily], [exLogPending], 2⟩

/-- A pending intake log that has already received its one follow-up. -/
def exLogPending1 : IntakeLog := ⟨2, 1, t0800, none, "pending", 1, none⟩

/-- Store holding only `exLogPending1`. -/
def exDbPending1 : DB := ⟨[exUser], [exPill], [exSchedDaily], [exLogPending1], 3⟩

/-- Store holding two pending logs, with follow-up counts 0 and 1. -/
def exDbTwoPending : DB := ⟨[exUser], [exPill], [exSchedDaily], [exLogPending, exLogPending1], 3⟩

/-- A pending intake log scheduled yesterday evening (`t2300` on `day0`). -/
def exLogPendingYesterday : IntakeLog := ⟨1, 1, t2300, none, "pending", 0, none⟩

/-- Store holding only `exLogPendingYesterday`. -/
def exDbPendingYesterday : DB := ⟨[exUser], [exPill], [exSchedDaily], [exLogPendingYesterday], 2⟩

/-- A pending intake log owned by the interval schedule `exSchedInterval`. -/
def exLogPendingInterval : IntakeLog := ⟨1, 2, t0800, none, "pending", 0, none⟩

/-- Store holding the daily and the interval schedule plus `exLogPendingInterval`. -/
def exDbInterval : DB :=
  ⟨[exUser], [exPill], [exSchedDaily, exSchedInterval], [exLogPendingInterval], 2⟩

/-- 09:00 on `day3` (2024-01-04). -/
def t0900d3 : PyDateTime := ⟨4860, day3, 9, "09:00"⟩

/-! Helper lemmas. -/

/-- Folding a step that preserves a predicate preserves it over a list. -/
theorem foldl_preserve {α β : Type _} {P : α → Prop} {f : α → β → α}
    (h : ∀ a b, P a → P (f a b)) : ∀ (l : List β) (a : α), P a → P (l.foldl f a)
  | [], _, ha => ha
  | b :: l, a, ha => foldl_preserve h l (f a b) (h a b ha)

/-- Membership in the stable insertion used for `ORDER BY s.time`. -/
theorem mem_insertByTime (a r : JoinedRow) (l : List JoinedRow) :
    a ∈ insertByTime r l ↔ a = r ∨ a ∈ l := by
  induction l with
  | nil => simp [insertByTime]
  | cons x xs ih =>
    simp only [insertByTime]
    split
    · simp only [List.mem_cons, ih]
      tauto
    · simp [List.mem_cons]

/-- Sorting by time does not change the rows, only their order. -/
theorem mem_orderByTime (a : JoinedRow) (l : List JoinedRow) :
    a ∈ orderByTime l ↔ a ∈ l := by
  induction l with
  | nil => simp [orderByTime]
  | cons x xs ih => simp [orderByTime, mem_insertByTime, ih]

/-- Characterisation of the interval branch of the recurrence check, used
by the theorems for C4 and C6. -/
theorem rowShouldRemind_interval (s : Schedule) (d : PyDate)
    (hfreq : s.frequency = "interval") (hiv : 0 < s.interval_days) :
    (∀ a, s.start_date = some a →
      (rowShouldRemind s d = true ↔
        0 ≤ d.ord - a.ord ∧ (d.ord - a.ord) % (s.interval_days : Int) = 0)) ∧
    (s.start_date = none → rowShouldRemind s d = true) := by
  have hne : ¬s.interval_days = 0 := by omega
  have e1 : ¬("interval" : String) = "" := by decide
  have e2 : ¬("interval" : String) = "daily" := by decide
  have e3 : ¬("interval" : String) = "weekly" := by decide
  have e4 : ¬("interval" : String) = "specific_days" := by decide
  have e5 : ¬("interval" : String) = "monthly" := by decide
  constructor
  · intro a ha
    simp [rowShouldRemind, shouldRemind, hfreq, ha, hne, e1, e2, e3, e4, e5, ge_iff_le]
  · intro ha
    simp [rowShouldRemind, shouldRemind, hfreq, ha, hne, e1, e2, e3, e4, e5]

/-- C4: for an `IntervalDays` rule with an anchor, `isDue(rule, date)` holds
iff `(date − anchorDate).days ≥ 0` and that difference is an exact multiple
of `intervalDays`; with no anchor, every date is due. -/
theorem C4_interval_isDue (s : Schedule) (d : PyDate)
    (hfreq : s.frequency = "interval") (hiv : 0 < s.interval_days) :
    (∀ a, s.start_date = some a →
      (rowShouldRemind s d = true ↔
        0 ≤ d.ord - a.ord ∧ (d.ord - a.ord) % (s.interval_days : Int) = 0)) ∧
    (s.start_date = none → rowShouldRemind s d = true) :=
  rowShouldRemind_interval s d hfreq hiv

/-- Witness for C4 at the spec's example: `intervalDays = 3` anchored at
2024-01-01 (`day0`) is due on 01-01 and 01-04 and not on 01-02. -/
theorem C4_interval_isDue_witness :
    exSchedInterval.frequency = "interval" ∧ 0 < exSchedInterval.interval_days ∧
    rowShouldRemind exSchedInterval day0 = true ∧
    rowShouldRemind exSchedInterval day3 = true ∧
    rowShouldRemind exSchedInterval day1 = false := by
  have h0 := (C4_interval_isDue exSchedInterval day0 (by decide) (by decide)).1 day0 (by decide)
  have h3 := (C4_interval_isDue exSchedInterval day3 (by decide) (by decide)).1 day0 (by decide)
  have h1 := (C4_interval_isDue exSchedInterval day1 (by decide) (by decide)).1 day0 (by decide)
  refine ⟨by decide, by decide, h0.mpr (by decide), h3.mpr (by decide), ?_⟩
  cases hcontra : rowShouldRemind exSchedInterval day1
  · rfl
  · exact absurd (h1.mp hcontra) (by decide)

/-- C5: `Daily` is always due; `Weekly`/`SpecificWeekdays` are due iff the
ISO weekday is selected; `Monthly` is due iff the day of month is selected,
with no end-of-month clamping, so a rule selecting day 31 is never due on a
valid February date. -/
theorem C5_fixed_calendar_isDue (s : Schedule) (d : PyDate) :
    (s.frequency = "daily" → rowShouldRemind s d = true) ∧
    (s.frequency = "weekly" ∨ s.frequency = "specific_days" →
      (rowShouldRemind s d = true ↔ d.isoweekday ∈ s.days)) ∧
    (s.frequency = "monthly" → (rowShouldRemind s d = true ↔ d.day ∈ s.days)) ∧
    (s.frequency = "monthly" → s.days = [31] → d.Valid → d.month = 2 →
      rowShouldRemind s d = false) := by
  refine ⟨?_, ?_, ?_, ?_⟩
  · intro h
    simp [rowShouldRemind, shouldRemind, h]
  · rintro (h | h) <;> simp [rowShouldRemind, shouldRemind, h]
  · intro h
    have e1 : ¬("monthly" : String) = "" := by decide
    have e2 : ¬("monthly" : String) = "daily" := by decide
    have e3 : ¬("monthly" : String) = "weekly" := by decide
    have e4 : ¬("monthly" : String) = "specific_days" := by decide
    simp [rowShouldRemind, shouldRemind, h, e1, e2, e3, e4]
  · intro h hdays hval hfeb
    have hday : d.day ≤ 29 := by
      obtain ⟨-, -, -, hle, -, -⟩ := hval
      rw [hfeb] at hle
      unfold daysInMonth at hle
      norm_num at hle
      split at hle <;> omega
    have e1 : ¬("monthly" : String) = "" := by decide
    have e2 : ¬("monthly" : String) = "daily" := by decide
    have e3 : ¬("monthly" : String) = "weekly" := by decide
    have e4 : ¬("monthly" : String) = "specific_days" := by decide
    simp [rowShouldRemind, shouldRemind, h, hdays, e1, e2, e3, e4]
    omega

/-- Witness for C5: a weekly {1,3,5} rule is due on Monday 2024-01-01 and
not on Tuesday 2024-01-02; the monthly day-31 rule is not due on 2024-02-05,
a valid February date. -/
theorem C5_fixed_calendar_isDue_witness :
    rowShouldRemind exSchedWeekly day0 = true ∧
    rowShouldRemind exSchedWeekly day1 = false ∧
    feb5.Valid ∧ rowShouldRemind exSchedMonthly31 feb5 = false := by
  have hw0 := (C5_fixed_calendar_isDue exSchedWeekly day0).2.1 (Or.inl (by decide))
  have hw1 := (C5_fixed_calendar_isDue exSchedWeekly day1).2.1 (Or.inl (by decide))
  have hf := (C5_fixed_calendar_isDue exSchedMonthly31 feb5).2.2.2 (by decide) (by decide)
      (by decide) (by decide)
  refine ⟨hw0.mpr (by decide), ?_, by decide, hf⟩
  cases hcontra : rowShouldRemind exSchedWeekly day1
  · rfl
  · exact absurd (hw1.mp hcontra) (by decide)

/-- C8: at or after the 21:00 cutoff hour, the follow-up evaluation tick is
a no-op: it emits no reminder rows and leaves the store unchanged. -/
theorem C8_followups_cutoff (db : DB) (now : PyDateTime) (h : 21 ≤ now.hour) :
    send_followup_reminders db now = (db, []) := by
  unfold send_followup_reminders is_within_reminder_hours
  rw [if_neg]
  simp only [decide_eq_true_eq]
  omega

/-- Witness for C8 at 22:00 on a store with a pending log that would
otherwise be eligible. -/
theorem C8_followups_cutoff_witness :
    send_followup_reminders exDbPending t2200 = (exDbPending, []) :=
  C8_followups_cutoff exDbPending t2200 (by decide)

/-- C10: exact-time selection and range selection agree on the degenerate
interval: `get_schedules_for_time t d` and `get_schedules_for_time_range t t d`
return the same set of rows, because both range endpoints are inclusive and
both apply the identical per-kind recurrence predicate. -/
theorem C10_exact_range_agree (db : DB) (t : String) (d : PyDate) (r : JoinedRow) :
    r ∈ get_schedules_for_time db t d ↔ r ∈ get_schedules_for_time_range db t t d := by
  unfold get_schedules_for_time get_schedules_for_time_range
  simp only [List.mem_filter, mem_orderByTime, Bool.and_eq_true, decide_eq_true_eq]
  constructor
  · rintro ⟨⟨hbase, heq, hact⟩, hp⟩
    exact ⟨⟨hbase, ⟨by rw [heq], by rw [heq]⟩, hact⟩, hp⟩
  · rintro ⟨⟨hbase, ⟨hle1, hle2⟩, hact⟩, hp⟩
    exact ⟨⟨hbase, le_antisymm hle2 hle1, hact⟩, hp⟩

/-- Counterexample for C2: `exLogTaken` is already finalized as `'taken'`,
yet confirming it as missed does not return the no-op acknowledgement: it
succeeds, flips the status to `'missed'`, and leaves the stale `taken_at`
in place. -/
theorem C2_counterexample :
    exLogTaken.status = "taken" ∧
    (confirm_missed exDbTaken 1 10).2 = ConfirmResult.success ∧
    (confirm_missed exDbTaken 1 10).1.logs = [{ exLogTaken with status := "missed" }] ∧
    ({ exLogTaken with status := "missed" } : IntakeLog).taken_at = some t0805 := by
  decide

/-- C2 amended: a confirm call is the `AlreadyFinalized` idempotent no-op —
returning the acknowledgement and leaving every record unchanged — exactly
when the record's status already equals the requested outcome (`'taken'`
for a taken-confirmation, `'missed'` for a missed-confirmation); in
particular re-confirming a taken record as taken does not alter `taken_at`.
A record finalized with the opposite outcome is not protected. -/
theorem C2_same_outcome_confirm_noop (db : DB) (log_id actor : Nat) (now : PyDateTime)
    (log : IntakeLog) (row : JoinedRow)
    (hlog : get_intake_log db log_id = some log)
    (hrow : ownerRow db log.schedule_id = some row)
    (hown : row.user.telegram_id = actor) :
    (log.status = "taken" → confirm_taken db log_id actor now = (db, ConfirmResult.alreadyDone)) ∧
    (log.status = "missed" → confirm_missed db log_id actor = (db, ConfirmResult.alreadyDone)) := by
  constructor
  · intro hst
    simp only [confirm_taken, hlog, hrow]
    simp [hown, hst]
  · intro hst
    simp only [confirm_missed, hlog, hrow]
    simp [hown, hst]

/-- Witness for the amended C2: same-outcome re-confirmation of a taken and
of a missed record is the acknowledged no-op. -/
theorem C2_same_outcome_confirm_noop_witness :
    confirm_taken exDbTaken 1 10 t0805 = (exDbTaken, ConfirmResult.alreadyDone) ∧
    confirm_missed exDbMissed 1 10 = (exDbMissed, ConfirmResult.alreadyDone) := by
  constructor
  · exact (C2_same_outcome_confirm_noop exDbTaken 1 10 t0805 exLogTaken
      ⟨exSchedDaily, exPill, exUser⟩ (by decide) (by decide) (by decide)).1 (by decide)
  · exact (C2_same_outcome_confirm_noop exDbMissed 1 10 t0805 exLogMissed
      ⟨exSchedDaily, exPill, exUser⟩ (by decide) (by decide) (by decide)).2 (by decide)

/-- C6: a successful taken-confirmation resets the owning schedule's
`start_date` to today exactly when the schedule's recurrence is
`'interval'`; other schedules' anchors are untouched; and an interval rule
whose anchor is today's date is subsequently due exactly on the multiples
of its interval counted from today. -/
theorem C6_taken_resets_interval_anchor (db : DB) (log_id actor : Nat) (now : PyDateTime)
    (log : IntakeLog) (row : JoinedRow)
    (hlog : get_intake_log db log_id = some log)
    (hrow : ownerRow db log.schedule_id = some row)
    (hown : row.user.telegram_id = actor)
    (hnt : ¬log.status = "taken") :
    (confirm_taken db log_id actor now).2 = ConfirmResult.success ∧
    (row.sched.frequency = "interval" →
      (confirm_taken db log_id actor now).1.schedules =
        db.schedules.map (fun s =>
          if s.id = row.sched.id then { s with start_date := some now.date } else s)) ∧
    (¬row.sched.frequency = "interval" →
      (confirm_taken db log_id actor now).1.schedules = db.schedules) ∧
    (∀ s2 : Schedule, ∀ d : PyDate, s2.frequency = "interval" → 0 < s2.interval_days →
      s2.start_date = some now.date →
      (rowShouldRemind s2 d = true ↔
        0 ≤ d.ord - now.date.ord ∧ (d.ord - now.date.ord) % (s2.interval_days : Int) = 0)) := by
  refine ⟨?_, ?_, ?_, ?_⟩
  · simp only [confirm_taken, hlog, hrow]
    simp [hown, hnt]
  · intro hf
    simp only [confirm_taken, hlog, hrow]
    simp [hown, hnt, hf, update_schedule_start_date, update_intake_status]
  · intro hf
    simp only [confirm_taken, hlog, hrow]
    simp [hown, hnt, hf, update_intake_status]
  · intro s2 d hf hiv ha
    exact (rowShouldRemind_interval s2 d hf hiv).1 now.date ha

/-- Witness for C6: confirming the pending log of the every-3-days schedule
as taken on 2024-01-04 moves its anchor from 2024-01-01 to 2024-01-04 and
leaves the daily schedule unchanged. -/
theorem C6_taken_resets_interval_anchor_witness :
    (confirm_taken exDbInterval 1 10 t0900d3).2 = ConfirmResult.success ∧
    (confirm_taken exDbInterval 1 10 t0900d3).1.schedules =
      [exSchedDaily, { exSchedInterval with start_date := some day3 }] := by
  have h := C6_taken_resets_interval_anchor exDbInterval 1 10 t0900d3 exLogPendingInterval
    ⟨exSchedInterval, exPill, exUser⟩ (by decide) (by decide) (by decide) (by decide)
  refine ⟨h.1, ?_⟩
  rw [h.2.1 (by decide)]
  decide

/-- The field update written by `updateLogStatus` never changes the log id. -/
theorem updateLogStatus_id (i : Nat) (st : String) (ta : Option PyDateTime) (l : IntakeLog) :
    (updateLogStatus i st ta l).id = l.id := by
  unfold updateLogStatus
  split
  · cases ta <;> rfl
  · rfl

/-- Characterisation of the evening sweep's update loop: folding
`update_intake_status · "reminded" none` over a batch of logs rewrites the
status of exactly the stored logs whose id occurs in the batch. -/
theorem foldl_update_status_logs (st : String) (L : List IntakeLog) :
    ∀ db : DB,
      (L.foldl (fun acc il => update_intake_status acc il.id st none) db).logs =
        db.logs.map (fun l =>
          if L.any (fun p => p.id = l.id) then { l with status := st } else l) := by
  induction L with
  | nil =>
    intro db
    simp
  | cons p L ih =>
    intro db
    rw [List.foldl_cons, ih]
    simp only [update_intake_status, List.map_map]
    apply List.map_congr_left
    intro l _
    by_cases hid : l.id = p.id
    · simp only [Function.comp_apply, updateLogStatus, if_pos hid, List.any_cons]
      have : (p.id = l.id) = True := by simp [hid]
      simp only [this]
      simp
    · simp only [Function.comp_apply, updateLogStatus, if_neg hid, List.any_cons]
      have : (decide (p.id = l.id)) = false := by simp [Ne.symm hid]
      simp [this]

/-- C9: the evening terminal sweep marks every record that is still pending
for the current day (and whose ownership chain resolves, as the sweep's
queries join through it) as `'reminded'` — the code's escalation marker —
with no condition on its follow-up count. -/
theorem C9_evening_sweep_escalates (db : DB) (today : PyDate) (l : IntakeLog)
    (hl : l ∈ db.logs) (hp : l.status = "pending")
    (hd : l.scheduled_time.date = today)
    (hc : (ownerRow db l.schedule_id).isSome = true) :
    { l with status := "reminded" } ∈ (send_evening_reminders db today).logs := by
  unfold send_evening_reminders
  rw [foldl_update_status_logs]
  apply List.mem_map.mpr
  refine ⟨l, hl, ?_⟩
  have hmem : l ∈ pendingLogsForToday db today := by
    unfold pendingLogsForToday
    exact List.mem_filter.mpr ⟨hl, by simp [hp, hd, hc]⟩
  have hany : (pendingLogsForToday db today).any (fun p => p.id = l.id) = true :=
    List.any_eq_true.mpr ⟨l, hmem, by simp⟩
  simp [hany]

/-- Witness for C9: both pending logs of `exDbTwoPending` — one with
follow-up count 0, one with count 1 — are marked `'reminded'` by the sweep. -/
theorem C9_evening_sweep_escalates_witness :
    exLogPending.reminder_count = 0 ∧ exLogPending1.reminder_count = 1 ∧
    { exLogPending with status := "reminded" } ∈
      (send_evening_reminders exDbTwoPending day0).logs ∧
    { exLogPending1 with status := "reminded" } ∈
      (send_evening_reminders exDbTwoPending day0).logs := by
  refine ⟨by decide, by decide, ?_, ?_⟩
  · exact C9_evening_sweep_escalates exDbTwoPending day0 exLogPending
      (by decide) (by decide) (by decide) (by decide)
  · exact C9_evening_sweep_escalates exDbTwoPending day0 exLogPending1
      (by decide) (by decide) (by decide) (by decide)

/-- Counterexample for C7: a record that is pending with follow-up count 0
and whose one-hour threshold has long passed is nevertheless not returned,
because the query also requires `date(scheduled_time) = date('now')` and
this record was scheduled the previous day. -/
theorem C7_counterexample :
    exLogPendingYesterday.status = "pending" ∧
    exLogPendingYesterday.reminder_count = 0 ∧
    exLogPendingYesterday.scheduled_time.minutes + 1 * 60 ≤ t0100.minutes ∧
    exLogPendingYesterday ∈ exDbPendingYesterday.logs ∧
    (ownerRow exDbPendingYesterday exLogPendingYesterday.schedule_id).isSome = true ∧
    get_logs_for_followup_reminder exDbPendingYesterday 1 t0100 = [] := by
  decide

/-- C7 amended: `get_logs_for_followup_reminder` returns exactly the
records that are pending, **scheduled on the current day**, have follow-up
count 0, whose scheduled time plus the threshold is at or before now, and
whose ownership chain resolves; every returned record has follow-up count
0, so each record receives at most one follow-up ever. -/
theorem C7_followup_selection (db : DB) (hours_ago : Nat) (now : PyDateTime) :
    (∀ il : IntakeLog,
      (∃ r ∈ get_logs_for_followup_reminder db hours_ago now, r.il = il) ↔
        (il ∈ db.logs ∧ il.status = "pending" ∧ il.scheduled_time.date = now.date ∧
          il.reminder_count = 0 ∧
          il.scheduled_time.minutes + hours_ago * 60 ≤ now.minutes ∧
          (ownerRow db il.schedule_id).isSome = true)) ∧
    (∀ r ∈ get_logs_for_followup_reminder db hours_ago now, r.il.reminder_count = 0) := by
  constructor
  · intro il
    constructor
    · rintro ⟨r, hr, hril⟩
      unfold get_logs_for_followup_reminder at hr
      rw [List.mem_filterMap] at hr
      obtain ⟨a, ha, hfa⟩ := hr
      split at hfa
      · rename_i hcond
        obtain ⟨j, hj, hrj⟩ := Option.map_eq_some'.mp hfa
        have hail : a = il := by
          rw [← hril, ← hrj]
        subst hail
        exact ⟨ha, hcond.1, hcond.2.1, hcond.2.2.1, hcond.2.2.2,
          Option.isSome_iff_exists.mpr ⟨j, hj⟩⟩
      · exact absurd hfa (by simp)
    · rintro ⟨hmem, h1, h2, h3, h4, h5⟩
      obtain ⟨j, hj⟩ := Option.isSome_iff_exists.mp h5
      refine ⟨⟨il, j.sched, j.pill, j.user⟩, ?_, rfl⟩
      unfold get_logs_for_followup_reminder
      rw [List.mem_filterMap]
      refine ⟨il, hmem, ?_⟩
      rw [if_pos ⟨h1, h2, h3, h4⟩, hj]
      rfl
  · intro r hr
    unfold get_logs_for_followup_reminder at hr
    rw [List.mem_filterMap] at hr
    obtain ⟨a, ha, hfa⟩ := hr
    split at hfa
    · rename_i hcond
      obtain ⟨j, hj, hrj⟩ := Option.map_eq_some'.mp hfa
      rw [← hrj]
      exact hcond.2.2.1
    · exact absurd hfa (by simp)

/-- Witness for the amended C7: the pending log scheduled 61 minutes before
now with follow-up count 0 is selected for the one-hour threshold; the same
situation with follow-up count 1 is not selected; a returned row has
follow-up count 0. -/
theorem C7_followup_selection_witness :
    (∃ r ∈ get_logs_for_followup_reminder exDbPending 1 t0901, r.il = exLogPending) ∧
    (¬∃ r ∈ get_logs_for_followup_reminder exDbPending1 1 t0901, r.il = exLogPending1) ∧
    (FollowupRow.mk exLogPending exSchedDaily exPill exUser).il.reminder_count = 0 := by
  refine ⟨?_, ?_, ?_⟩
  · exact ((C7_followup_selection exDbPending 1 t0901).1 exLogPending).mpr (by decide)
  · intro hex
    exact absurd (((C7_followup_selection exDbPending1 1 t0901).1 exLogPending1).mp hex)
      (by decide)
  · exact (C7_followup_selection exDbPending 1 t0901).2
      (FollowupRow.mk exLogPending exSchedDaily exPill exUser) (by decide)

/-- An absent occurrence key means no stored log matches it. -/
theorem check_existing_false_iff (db : DB) (sid : Nat) (d : PyDate) :
    check_existing_log db sid d = false ↔
      ∀ l ∈ db.logs, ¬(l.schedule_id = sid ∧ l.scheduled_time.date = d) := by
  simp [check_existing_log, List.any_eq_false]

/-- Creating a log for an occurrence key that has no log yet preserves the
one-record-per-occurrence invariant. -/
theorem atMostOne_create (db : DB) (sid : Nat) (now : PyDateTime)
    (hinv : AtMostOnePerOccurrence db)
    (hchk : check_existing_log db sid now.date = false) :
    AtMostOnePerOccurrence (create_intake_log db sid now).1 := by
  unfold AtMostOnePerOccurrence create_intake_log at *
  rw [List.pairwise_append]
  refine ⟨hinv, List.pairwise_singleton _ _, ?_⟩
  intro a ha b hb
  rw [List.mem_singleton] at hb
  subst hb
  have hkey := (check_existing_false_iff db sid now.date).mp hchk a ha
  unfold KeyDisjoint
  simpa using hkey

/-- One reminder tick preserves the one-record-per-occurrence invariant. -/
theorem atMostOne_tick (db : DB) (now : PyDateTime) (h : AtMostOnePerOccurrence db) :
    AtMostOnePerOccurrence (send_reminders db now).1 := by
  unfold send_reminders
  refine foldl_preserve (P := fun acc : DB × List IntakeLog => AtMostOnePerOccurrence acc.1)
    ?_ _ _ h
  intro acc r hacc
  dsimp only
  split
  · exact hacc
  · rename_i hchk
    exact atMostOne_create acc.1 r.sched.id now hacc (Bool.not_eq_true _ ▸ eq_false_of_ne_true hchk)

/-- After an `ensureRecord` call, a further call for the same occurrence key
is a no-op that reports `created = false`. -/
theorem ensure_after_ensure (db : DB) (sid : Nat) (now now2 : PyDateTime)
    (hd : now2.date = now.date) :
    ensureRecord (ensureRecord db sid now).1 sid now2 = ((ensureRecord db sid now).1, false) := by
  by_cases h : check_existing_log db sid now.date
  · unfold ensureRecord
    simp [h, hd]
  · have hmem : check_existing_log (create_intake_log db sid now).1 sid now2.date = true := by
      unfold check_existing_log create_intake_log
      rw [List.any_eq_true]
      exact ⟨⟨db.next_log_id, sid, now, none, "pending", 0, none⟩, by simp, by simp [hd]⟩
    unfold ensureRecord
    simp [h, hmem]

/-- C1: `ensureRecord` is idempotent per `(ruleId, date)`: when no record
exists it creates exactly one pending record and reports `created = true`;
any further call for the same occurrence returns the state unchanged with
`created = false`; and starting from a store satisfying the
one-record-per-occurrence invariant, any sequence of reminder ticks
preserves it. -/
theorem C1_record_creation_idempotent (db : DB) (sid : Nat)
    (now now2 : PyDateTime) (nows : List PyDateTime)
    (hd : now2.date = now.date) (hinv : AtMostOnePerOccurrence db) :
    (check_existing_log db sid now.date = false →
      ensureRecord db sid now =
        (DB.mk db.users db.pills db.schedules
          (db.logs ++ [⟨db.next_log_id, sid, now, none, "pending", 0, none⟩])
          (db.next_log_id + 1), true)) ∧
    ensureRecord (ensureRecord db sid now).1 sid now2 = ((ensureRecord db sid now).1, false) ∧
    AtMostOnePerOccurrence (runOps db (nows.map Op.tick)) := by
  refine ⟨?_, ensure_after_ensure db sid now now2 hd, ?_⟩
  · intro hchk
    unfold ensureRecord create_intake_log
    simp [hchk]
  · clear hd
    induction nows generalizing db with
    | nil => exact hinv
    | cons n ns ih =>
      simpa [runOps, stepOp] using ih (send_reminders db n).1 (atMostOne_tick db n hinv)

/-- Witness for C1: on the empty store the first `ensureRecord` creates the
pending record and reports `created = true`, the second call for the same
day is a no-op reporting `created = false`, and two identical reminder
ticks leave at most one record per occurrence. -/
theorem C1_record_creation_idempotent_witness :
    (ensureRecord exDb0 1 t0800).2 = true ∧
    (ensureRecord exDb0 1 t0800).1.logs = [exLogPending] ∧
    ensureRecord (ensureRecord exDb0 1 t0800).1 1 t0805 = ((ensureRecord exDb0 1 t0800).1, false) ∧
    AtMostOnePerOccurrence (runOps exDb0 [Op.tick t0800, Op.tick t0800]) := by
  obtain ⟨h1, h2, h3⟩ :=
    C1_record_creation_idempotent exDb0 1 t0800 t0805 [t0800, t0800] (by decide) (by decide)
  have hc := h1 (by decide)
  exact ⟨by rw [hc], by rw [hc]; decide, h2, by simpa using h3⟩

/-- The next-id counter is untouched by the evening sweep's update loop. -/
theorem foldl_update_status_next (st : String) (L : List IntakeLog) :
    ∀ db : DB,
      (L.foldl (fun acc il => update_intake_status acc il.id st none) db).next_log_id =
        db.next_log_id := by
  induction L with
  | nil => intro db; rfl
  | cons p L ih => intro db; rw [List.foldl_cons, ih]; rfl

/-- Pointwise-safe rewrites of the log table preserve the store invariant:
if the rewrite keeps every id and keeps every row's takenAt discipline,
the whole store keeps `DBInv`. -/
theorem DBInv_map_logs (db : DB) (f : IntakeLog → IntakeLog)
    (hid : ∀ l, (f l).id = l.id)
    (hok : ∀ l ∈ db.logs,
      ((l.status = "taken" → l.taken_at.isSome = true) ∧
        (l.taken_at.isSome = true → l.status = "taken" ∨ l.status = "missed")) →
      (((f l).status = "taken" → (f l).taken_at.isSome = true) ∧
        ((f l).taken_at.isSome = true → (f l).status = "taken" ∨ (f l).status = "missed")))
    (h : DBInv db) :
    DBInv { db with logs := db.logs.map f } := by
  unfold DBInv TakenAtInv LogIdsNodup LogIdsBounded at h ⊢
  obtain ⟨hP, hN, hB⟩ := h
  refine ⟨?_, ?_, ?_⟩
  · intro l' hl'
    simp only [List.mem_map] at hl'
    obtain ⟨l, hl, rfl⟩ := hl'
    exact hok l hl (hP l hl)
  · show (List.map (fun l => l.id) (db.logs.map f)).Nodup
    rw [List.map_map]
    have he : ((fun l : IntakeLog => l.id) ∘ f) = fun l : IntakeLog => l.id :=
      funext fun l => hid l
    rw [he]
    exact hN
  · intro l' hl'
    simp only [List.mem_map] at hl'
    obtain ⟨l, hl, rfl⟩ := hl'
    show (f l).id < db.next_log_id
    rw [hid]
    exact hB l hl

/-- Marking a log taken (with a timestamp) preserves the store invariant. -/
theorem DBInv_update_taken (db : DB) (i : Nat) (now : PyDateTime) (h : DBInv db) :
    DBInv (update_intake_status db i "taken" (some now)) := by
  refine DBInv_map_logs db _ (fun l => updateLogStatus_id i "taken" (some now) l) ?_ h
  intro l _ hl
  unfold updateLogStatus
  by_cases hid : l.id = i
  · simp [hid]
  · simp only [if_neg hid]
    exact hl

/-- Marking a log missed (no timestamp written) preserves the store
invariant. -/
theorem DBInv_update_missed (db : DB) (i : Nat) (h : DBInv db) :
    DBInv (update_intake_status db i "missed" none) := by
  refine DBInv_map_logs db _ (fun l => updateLogStatus_id i "missed" none l) ?_ h
  intro l _ hl
  unfold updateLogStatus
  by_cases hid : l.id = i
  · simp only [if_pos hid]
    refine ⟨fun hcon => absurd hcon (by decide), fun _ => ?_⟩
    simp
  · simp only [if_neg hid]
    exact hl

/-- Bumping a follow-up counter preserves the store invariant. -/
theorem DBInv_update_reminder (db : DB) (i : Nat) (t : PyDateTime) (h : DBInv db) :
    DBInv (update_reminder_count db i t) := by
  refine DBInv_map_logs db _ ?_ ?_ h
  · intro l
    dsimp only
    split <;> rfl
  · intro l _ hl
    dsimp only
    split
    · exact hl
    · exact hl

/-- Resetting a schedule anchor touches no log, so the store invariant is
kept. -/
theorem DBInv_update_schedule (db : DB) (sid : Nat) (d : PyDate) (h : DBInv db) :
    DBInv (update_schedule_start_date db sid d) :=
  h

/-- Appending a fresh pending log (id = next counter, no `taken_at`)
preserves the store invariant. -/
theorem DBInv_append_pending (db : DB) (newl : IntakeLog)
    (hid2 : newl.id = db.next_log_id)
    (hst : newl.status = "pending") (hta : newl.taken_at = none) (h : DBInv db) :
    DBInv (DB.mk db.users db.pills db.schedules (db.logs ++ [newl]) (db.next_log_id + 1)) := by
  unfold DBInv TakenAtInv LogIdsNodup LogIdsBounded at h ⊢
  obtain ⟨hP, hN, hB⟩ := h
  refine ⟨?_, ?_, ?_⟩
  · intro l hl
    simp only [List.mem_append, List.mem_singleton] at hl
    rcases hl with hl | rfl
    · exact hP l hl
    · rw [hst, hta]
      exact ⟨fun hcon => absurd hcon (by decide), fun hsome => by simp at hsome⟩
  · show (List.map (fun l => l.id) (db.logs ++ [newl])).Nodup
    rw [List.map_append, List.nodup_append]
    refine ⟨hN, by simp, ?_⟩
    intro a ha hb
    simp only [List.map_cons, List.map_nil, List.mem_singleton] at hb
    simp only [List.mem_map] at ha
    obtain ⟨l, hl, rfl⟩ := ha
    have := hB l hl
    rw [hb, hid2] at *
    omega
  · intro l hl
    simp only [List.mem_append, List.mem_singleton] at hl
    show l.id < db.next_log_id + 1
    rcases hl with hl | rfl
    · have := hB l hl
      omega
    · rw [hid2]
      omega

/-- Creating a fresh pending log preserves the store invariant. -/
theorem DBInv_create (db : DB) (sid : Nat) (now : PyDateTime) (h : DBInv db) :
    DBInv (create_intake_log db sid now).1 :=
  DBInv_append_pending db ⟨db.next_log_id, sid, now, none, "pending", 0, none⟩ rfl rfl rfl h

/-- A reminder tick preserves the store invariant. -/
theorem DBInv_tick (db : DB) (now : PyDateTime) (h : DBInv db) :
    DBInv (send_reminders db now).1 := by
  unfold send_reminders
  refine foldl_preserve (P := fun acc : DB × List IntakeLog => DBInv acc.1) ?_ _ _ h
  intro acc r hacc
  dsimp only
  split
  · exact hacc
  · exact DBInv_create acc.1 r.sched.id now hacc

/-- A taken-confirmation preserves the store invariant. -/
theorem DBInv_confirm_taken (db : DB) (log_id actor : Nat) (now : PyDateTime) (h : DBInv db) :
    DBInv (confirm_taken db log_id actor now).1 := by
  unfold confirm_taken
  split
  · exact h
  · split
    · exact h
    · split
      · exact h
      · split
        · exact h
        · dsimp only
          split
          · exact DBInv_update_schedule _ _ _ (DBInv_update_taken db log_id now h)
          · exact DBInv_update_taken db log_id now h

/-- A missed-confirmation preserves the store invariant. -/
theorem DBInv_confirm_missed (db : DB) (log_id actor : Nat) (h : DBInv db) :
    DBInv (confirm_missed db log_id actor).1 := by
  unfold confirm_missed
  split
  · exact h
  · split
    · exact h
    · split
      · exact h
      · split
        · exact h
        · exact DBInv_update_missed db log_id h

/-- A follow-up tick preserves the store invariant. -/
theorem DBInv_followups (db : DB) (now : PyDateTime) (h : DBInv db) :
    DBInv (send_followup_reminders db now).1 := by
  unfold send_followup_reminders
  split
  · refine foldl_preserve (P := fun acc : DB => DBInv acc) ?_ _ _ h
    intro acc r hacc
    exact DBInv_update_reminder acc r.il.id now hacc
  · exact h

/-- The evening sweep preserves the store invariant: only rows that are
currently pending — hence, by the invariant, without a `taken_at` — get
their status rewritten to `'reminded'`. -/
theorem DBInv_sweep (db : DB) (today : PyDate) (h : DBInv db) :
    DBInv (send_evening_reminders db today) := by
  have hlogsR := foldl_update_status_logs "reminded" (pendingLogsForToday db today) db
  have hnextR := foldl_update_status_next "reminded" (pendingLogsForToday db today) db
  unfold send_evening_reminders at *
  unfold DBInv TakenAtInv LogIdsNodup LogIdsBounded at h ⊢
  obtain ⟨hP, hN, hB⟩ := h
  refine ⟨?_, ?_, ?_⟩
  · intro l' hl'
    rw [hlogsR] at hl'
    simp only [List.mem_map] at hl'
    obtain ⟨l, hl, rfl⟩ := hl'
    by_cases hany : (pendingLogsForToday db today).any (fun p => p.id = l.id) = true
    · obtain ⟨p, hpmem, hpid⟩ := List.any_eq_true.mp hany
      have hpl : p ∈ db.logs ∧ p.status = "pending" := by
        unfold pendingLogsForToday at hpmem
        have hsplit := List.mem_filter.mp hpmem
        refine ⟨hsplit.1, ?_⟩
        have hcond := hsplit.2
        simp only [Bool.and_eq_true, decide_eq_true_eq] at hcond
        exact hcond.1.1
      have hpeq : p = l :=
        List.inj_on_of_nodup_map hN hpl.1 hl (of_decide_eq_true hpid)
      have hlpend : l.status = "pending" := hpeq ▸ hpl.2
      have hnone : l.taken_at.isSome = false := by
        by_contra hcon
        have hsome : l.taken_at.isSome = true := by
          cases hx : l.taken_at.isSome
          · exact absurd hx hcon
          · rfl
        rcases (hP l hl).2 hsome with hx | hx <;> rw [hlpend] at hx <;>
          exact absurd hx (by decide)
      simp only [if_pos hany]
      exact ⟨fun hcon => absurd hcon (by decide),
        fun hsome => by rw [hnone] at hsome; cases hsome⟩
    · simp only [if_neg hany]
      exact hP l hl
  · rw [hlogsR, List.map_map]
    have he : ((fun l : IntakeLog => l.id) ∘ fun l : IntakeLog =>
        if (pendingLogsForToday db today).any (fun p => p.id = l.id) then
          { l with status := "reminded" } else l) = fun l : IntakeLog => l.id := by
      funext l
      dsimp only [Function.comp_apply]
      split <;> rfl
    rw [he]
    exact hN
  · intro l' hl'
    rw [hlogsR] at hl'
    simp only [List.mem_map] at hl'
    obtain ⟨l, hl, rfl⟩ := hl'
    rw [hnextR]
    split
    · exact hB l hl
    · exact hB l hl

/-- Every engine operation preserves the store invariant. -/
theorem DBInv_step (db : DB) (op : Op) (h : DBInv db) : DBInv (stepOp db op) := by
  cases op with
  | tick now => exact DBInv_tick db now h
  | confirmTaken log_id actor now => exact DBInv_confirm_taken db log_id actor now h
  | confirmMissed log_id actor => exact DBInv_confirm_missed db log_id actor h
  | followUps now => exact DBInv_followups db now h
  | eveningSweep today => exact DBInv_sweep db today h

/-- Counterexample for C3: the reachable sequence "tick creates the record,
the user confirms taken at 08:05, then confirms missed" ends in a record
whose `taken_at` is set while its status is not `'taken'` — the claimed
iff fails. -/
theorem C3_counterexample :
    ∃ l ∈ (runOps exDb0
        [Op.tick t0800, Op.confirmTaken 1 10 t0805, Op.confirmMissed 1 10]).logs,
      l.taken_at.isSome = true ∧ ¬l.status = "taken" := by
  decide

/-- C3 amended: in every state reachable by the engine's operations from a
well-formed store, a `'taken'` record always carries `taken_at`, and a
record carrying `taken_at` is `'taken'` or `'missed'`; the full
"`taken_at` iff `'taken'`" biconditional fails only because a
missed-confirmation over an already-taken record keeps the stale
`taken_at`. -/
theorem C3_takenAt_discipline (db : DB) (ops : List Op) (h : DBInv db) :
    TakenAtInv (runOps db ops) := by
  have hinv : DBInv (runOps db ops) :=
    foldl_preserve (fun a b hP => DBInv_step a b hP) ops db h
  exact hinv.1

/-- Witness for the amended C3 on a concrete reachable state. -/
theorem C3_takenAt_discipline_witness :
    TakenAtInv (runOps exDb0 [Op.tick t0800, Op.confirmTaken 1 10 t0805]) :=
  C3_takenAt_discipline exDb0 [Op.tick t0800, Op.confirmTaken 1 10 t0805] (by decide)
